import Mathlib

/-!
Shallow embedding of the p5.sound.js node wrappers (SoundFile, Noise, FFT)
and the slice of the underlying Tone.js engine state they touch.

Conventions of the embedding:
* JS numbers used as times, rates and gains are modelled as exact rationals
  (`ℚ`); the dB value produced by `Tone.gainToDb` is modelled over the reals
  with the IEEE special results (`-Infinity`, `NaN`) as explicit
  constructors, since `Math.log10` is transcendental.
* Engine (Tone.js) nodes are modelled by the fields the wrappers read or
  write: play state, playback rate, loop flag and loop bounds, volume,
  seek position, the decoded buffer (absent until loading completes, which
  is how the wrapper's own `if (this.soundfile.buffer)` guards treat it),
  and the set of outgoing connections in the render graph.
* Fallible JS operations return `Except JsError`; a JS method returning
  without a value returns `none` of an `Option`.
-/

/-- Errors a modelled JS call can raise: `TypeError` (e.g. property access on
`undefined`, or calling a non-function), and the Web-Audio
`InvalidAccessError` raised when disconnecting from a target that is not
connected. -/
inductive JsError where
  | typeError
  | invalidAccess
deriving DecidableEq, Repr

/-- Decoded audio-buffer metadata, as read through `this.soundfile.buffer`:
`duration` (seconds), `sampleRate`, `length` (frame count) and
`numberOfChannels`. -/
structure BufferMeta where
  duration : ℚ
  sampleRate : ℚ
  length : ℕ
  numberOfChannels : ℕ
deriving DecidableEq, Repr

/-- Play state of an engine source node. -/
inductive PlayState where
  | started
  | stopped
deriving DecidableEq, Repr

/-- Decibel value stored in an engine `volume` parameter. JS numbers are
doubles, so the non-finite results of `20 * Math.log10(gain)` are explicit:
`negInf` is `-Infinity` (the result at gain 0, which the engine treats as
zero gain, i.e. mute) and `nan` the result at negative gain. -/
inductive DbValue where
  | nan
  | negInf
  | fin (x : ℝ)

/-- Tone.js `gainToDb`, which is `20 * Math.log10(gain)` with no
special-casing: negative input gives `NaN`, zero gives `-Infinity`, positive
input the finite value `20 * log10 gain`. -/
noncomputable def gainToDb (gain : ℚ) : DbValue :=
  if gain < 0 then DbValue.nan
  else if gain = 0 then DbValue.negInf
  else DbValue.fin (20 * Real.logb 10 (gain : ℝ))

/-- Handle of the context's final destination node in the render graph. -/
def destinationHandle : ℕ := 0

/-- Value of the JS expression `Tone.Context.destination`: `Tone.Context` is
the `Context` class object, which has no static `destination` property, so
the property access evaluates to `undefined` (`none`). -/
def toneContextDestination : Option ℕ := none

/-- Engine semantics of `node.disconnect(target)` on a node's outgoing edge
list (Tone.js delegates to the Web Audio node): with `undefined`/no argument
every outgoing edge is removed and nothing is raised even when there is no
edge; with a concrete target, only the edges to that target are removed, and
an `InvalidAccessError` is raised if none exists. -/
def disconnectEdges (target : Option ℕ) (edges : List ℕ) :
    Except JsError (List ℕ) :=
  match target with
  | none => Except.ok []
  | some h =>
      if h ∈ edges then Except.ok (edges.filter (fun e => e ≠ h))
      else Except.error JsError.invalidAccess

/-- The slice of a `Tone.Player` the `SoundFile` wrapper reads and writes. -/
structure TonePlayer where
  buffer : Option BufferMeta
  state : PlayState
  playbackRate : ℚ
  loop : Bool
  loopStart : ℚ
  loopEnd : ℚ
  volume : DbValue
  seekPos : ℚ
  outEdges : List ℕ

/-- A fresh `Tone.Player` (defaults: stopped, rate 1, no loop, loop bounds 0,
volume 0 dB, position 0, not yet connected anywhere); the buffer is the
argument, absent until decoding completes. -/
def TonePlayer.new (buf : Option BufferMeta) : TonePlayer :=
  { buffer := buf
    state := PlayState.stopped
    playbackRate := 1
    loop := false
    loopStart := 0
    loopEnd := 0
    volume := DbValue.fin 0
    seekPos := 0
    outEdges := [] }

/-- Engine `player.start()`: the source begins producing samples. -/
def TonePlayer.toneStart (p : TonePlayer) : TonePlayer :=
  { p with state := PlayState.started }

/-- Engine `player.stop()`: the source stops producing samples; a stop on an
already stopped source is a no-op. -/
def TonePlayer.toneStop (p : TonePlayer) : TonePlayer :=
  { p with state := PlayState.stopped }

/-- Engine `player.seek(t)`: moves the transport position. -/
def TonePlayer.toneSeek (p : TonePlayer) (t : ℚ) : TonePlayer :=
  { p with seekPos := t }

/-- Engine `player.connect(h)` / `.toDestination()`: adds an outgoing edge. -/
def TonePlayer.toneConnect (p : TonePlayer) (h : ℕ) : TonePlayer :=
  { p with outEdges := p.outEdges ++ [h] }

/-- The `SoundFile` wrapper state: the engine player plus the wrapper's own
fields assigned in the constructor, `this.playing = false` and
`this.rate = 1`. -/
structure SoundFile where
  soundfile : TonePlayer
  playing : Bool
  rate : ℚ

/-- Constructor `new SoundFile(buffer, cb)`:
`this.soundfile = new Tone.Player(buffer, cb).toDestination()` (so the
player starts with the single implicit edge to the destination),
`this.playing = false`, `this.rate = 1`. -/
def SoundFile.new (buf : Option BufferMeta) : SoundFile :=
  { soundfile := (TonePlayer.new buf).toneConnect destinationHandle
    playing := false
    rate := 1 }

/-- Method `start()`: `this.soundfile.playbackRate = this.rate;
this.soundfile.start(); this.playing = true;`. -/
def SoundFile.start (sf : SoundFile) : SoundFile :=
  { sf with
    soundfile := ({ sf.soundfile with playbackRate := sf.rate }).toneStart
    playing := true }

/-- Method `play()`: `this.soundfile.playbackRate = this.rate;
console.log(this.rate); this.soundfile.start(); this.playing = true;`
(the `console.log` writes to the console and touches no node state). -/
def SoundFile.play (sf : SoundFile) : SoundFile :=
  { sf with
    soundfile := ({ sf.soundfile with playbackRate := sf.rate }).toneStart
    playing := true }

/-- Method `stop()`: `this.soundfile.stop();` — the engine source is
stopped; the wrapper's `playing` field is not written. -/
def SoundFile.stop (sf : SoundFile) : SoundFile :=
  { sf with soundfile := sf.soundfile.toneStop }

/-- Method `pause()`: `this.soundfile.playbackRate = 0;
this.playing = false;` — no engine stop and no seek. -/
def SoundFile.pause (sf : SoundFile) : SoundFile :=
  { sf with
    soundfile := { sf.soundfile with playbackRate := 0 }
    playing := false }

/-- Method `loop(value = true)`: `this.soundfile.loop = value;`. -/
def SoundFile.loop (sf : SoundFile) (value : Bool := true) : SoundFile :=
  { sf with soundfile := { sf.soundfile with loop := value } }

/-- Method `loopPoints(startTime, duration, schedule = 0)` called with both
arguments explicit: `this.soundfile.loopStart = startTime;
this.soundfile.loopEnd = startTime + duration;` — the `schedule` parameter
is accepted and never read. -/
def SoundFile.loopPoints (sf : SoundFile) (startTime duration : ℚ)
    (schedule : ℚ := 0) : SoundFile :=
  { sf with
    soundfile :=
      { sf.soundfile with
        loopStart := startTime
        loopEnd := startTime + duration } }

/-- Method `amp(value)`: `let dbValue = Tone.gainToDb(value);
this.soundfile.volume.value = dbValue;`. -/
noncomputable def SoundFile.amp (sf : SoundFile) (value : ℚ) : SoundFile :=
  { sf with soundfile := { sf.soundfile with volume := gainToDb value } }

/-- Method `jump(value)`: `this.soundfile.seek(value);`. -/
def SoundFile.jump (sf : SoundFile) (value : ℚ) : SoundFile :=
  { sf with soundfile := sf.soundfile.toneSeek value }

/-- Method `duration()`: `return this.soundfile.buffer.duration;` with no
guard, so when the buffer has not loaded (`buffer` is `undefined`) the
property access raises a `TypeError`. -/
def SoundFile.duration (sf : SoundFile) : Except JsError ℚ :=
  match sf.soundfile.buffer with
  | none => Except.error JsError.typeError
  | some b => Except.ok b.duration

/-- Method `sampleRate()`: `if (this.soundfile.buffer) return
this.soundfile.buffer.sampleRate;` — falls through to `undefined` when the
buffer has not loaded. -/
def SoundFile.sampleRate (sf : SoundFile) : Option ℚ :=
  sf.soundfile.buffer.map (fun b => b.sampleRate)

/-- Method `frames()`: `if (this.soundfile.buffer) return
this.soundfile.buffer.length;` — `undefined` when not loaded. -/
def SoundFile.frames (sf : SoundFile) : Option ℕ :=
  sf.soundfile.buffer.map (fun b => b.length)

/-- Method `channels()`: `if (this.soundfile.buffer) return
this.soundfile.buffer.numberOfChannels;` — `undefined` when not loaded. -/
def SoundFile.channels (sf : SoundFile) : Option ℕ :=
  sf.soundfile.buffer.map (fun b => b.numberOfChannels)

/-- Method `isPlaying()`: `return this.playing;`. -/
def SoundFile.isPlaying (sf : SoundFile) : Bool :=
  sf.playing

/-- Method `isLooping()`: `return this.soundfile.loop;`. -/
def SoundFile.isLooping (sf : SoundFile) : Bool :=
  sf.soundfile.loop

/-- Method `connect(destination)`:
`this.soundfile.connect(destination.getNode());`. -/
def SoundFile.connect (sf : SoundFile) (destination : ℕ) : SoundFile :=
  { sf with soundfile := sf.soundfile.toneConnect destination }

/-- Method `disconnect()`:
`this.soundfile.disconnect(Tone.Context.destination);` — the argument
evaluates to `undefined`, so the engine removes every outgoing edge. -/
def SoundFile.disconnect (sf : SoundFile) : Except JsError SoundFile :=
  (disconnectEdges toneContextDestination sf.soundfile.outEdges).map
    (fun es => { sf with soundfile := { sf.soundfile with outEdges := es } })

/-- A loaded one-second stereo test buffer. -/
def buf0 : BufferMeta :=
  { duration := 1, sampleRate := 44100, length := 44100, numberOfChannels := 2 }

/-- A `SoundFile` whose buffer has finished loading. -/
def sf0 : SoundFile := SoundFile.new (some buf0)

/-- A `SoundFile` whose buffer has not yet loaded. -/
def sfUnloaded : SoundFile := SoundFile.new none

/-- The slice of a `Tone.Noise` the `Noise` wrapper reads and writes. -/
structure ToneNoise where
  type : String
  state : PlayState
  outEdges : List ℕ
deriving DecidableEq, Repr

/-- The `Noise` wrapper state: just the engine node `this.noise`. -/
structure Noise where
  noise : ToneNoise
deriving DecidableEq, Repr

/-- Constructor `new Noise(type)`: `if (typeof type === "undefined") type =
"white"; this.noise = new Tone.Noise().toDestination(); this.noise.type =
type;` — the argument is forwarded to the engine node unchanged, with no
validation against the recognized colors. -/
def Noise.new (ty : Option String) : Noise :=
  let t := match ty with
    | none => "white"
    | some s => s
  { noise :=
      { type := t
        state := PlayState.stopped
        outEdges := [destinationHandle] } }

/-- Method `type(t)`: `this.noise.type = t;` — forwarded unvalidated. -/
def Noise.type (n : Noise) (t : String) : Noise :=
  { n with noise := { n.noise with type := t } }

/-- Method `connect(destination)`:
`this.noise.connect(destination.getNode());`. -/
def Noise.connect (n : Noise) (destination : ℕ) : Noise :=
  { n with noise := { n.noise with outEdges := n.noise.outEdges ++ [destination] } }

/-- Method `disconnect()`:
`this.noise.disconnect(Tone.Context.destination);` — the argument evaluates
to `undefined`, so the engine removes every outgoing edge. -/
def Noise.disconnect (n : Noise) : Except JsError Noise :=
  (disconnectEdges toneContextDestination n.noise.outEdges).map
    (fun es => { n with noise := { n.noise with outEdges := es } })

/-- Method `start()`: `this.noise.start();`. -/
def Noise.start (n : Noise) : Noise :=
  { n with noise := { n.noise with state := PlayState.started } }

/-- Method `stop()`: `this.noise.stop();`. -/
def Noise.stop (n : Noise) : Noise :=
  { n with noise := { n.noise with state := PlayState.stopped } }

/-- The slice of a `Tone.FFT` the wrapper uses: its `size` and `normalRange`
options as passed by the constructor. -/
structure ToneFFT where
  size : ℕ
  normalRange : Bool
deriving DecidableEq, Repr

/-- Engine `Tone.FFT.getValue()`: returns one magnitude per bin, `size`
values in all (the `size` option of `Tone.FFT` is the number of returned
bins; the underlying analyser window is twice that). The ambient spectrum is
a parameter `raw` (bin index to raw magnitude); with `normalRange` set each
value is presented in the normalized range `[0, 1]` per the engine's
convention, modelled by clamping the raw magnitude to the unit interval. -/
def ToneFFT.getValue (f : ToneFFT) (raw : ℕ → ℚ) : List ℚ :=
  (List.range f.size).map
    (fun i => if f.normalRange then max 0 (min 1 (raw i)) else raw i)

/-- The `FFT` wrapper state: the fields the constructor assigns on `this` —
`fftSize`, the `Tone.FFT` analyzer, the `Tone.Waveform` tap (modelled by its
handle only) and the summing gain node (modelled by its handle). -/
structure FFT where
  fftSize : ℕ
  analyzer : ToneFFT
  waveform : ℕ
  gain : ℕ
deriving DecidableEq, Repr

/-- Constructor `new FFT(fftSize)`: `if (fftSize === undefined) fftSize =
32; this.fftSize = fftSize; this.analyzer = new Tone.FFT({ size: fftSize,
normalRange: true }); this.waveform = new Tone.Waveform(); this.gain = new
Tone.Gain(1); ...` — note `size` receives `fftSize` itself. -/
def FFT.new (fftSize : Option ℕ) : FFT :=
  let n := match fftSize with
    | none => 32
    | some k => k
  { fftSize := n
    analyzer := { size := n, normalRange := true }
    waveform := 1
    gain := 2 }

/-- Method `analyze()`: `return this.analyzer.getValue();`. -/
def FFT.analyze (f : FFT) (raw : ℕ → ℚ) : List ℚ :=
  f.analyzer.getValue raw

/-- Own (instance) properties assigned by the `FFT` constructor, in source
order (`this.fftSize`, `this.analyzer`, `this.waveform`, `this.gain`). -/
def fftOwnProps : List String :=
  ["fftSize", "analyzer", "waveform", "gain"]

/-- Whether the value held by an own property of an `FFT` instance is
callable: the constructor assigns a number, a `Tone.FFT`, a `Tone.Waveform`
and a `Tone.Gain` — none of them is a function. -/
def fftOwnPropCallable : String → Bool := fun _ => false

/-- Methods on the `FFT` class prototype (`getNode`, `analyze`,
`waveform`). -/
def fftProtoMethods : List String :=
  ["getNode", "analyze", "waveform"]

/-- JS method-call resolution `obj.name(...)`: an own property shadows the
prototype method of the same name; if the property found is not a function
the call raises a `TypeError`; a prototype method runs; otherwise the lookup
yields `undefined` and calling it raises a `TypeError`. -/
def jsCallMethod (own : List String) (ownCallable : String → Bool)
    (proto : List String) (name : String) : Except JsError Unit :=
  if name ∈ own then
    if ownCallable name then Except.ok () else Except.error JsError.typeError
  else if name ∈ proto then Except.ok ()
  else Except.error JsError.typeError

/-- C1: the claim says `isPlaying()` returns `false` immediately after
`stop()` and that `stop()` resets the node to the stopped state. The code's
`stop()` stops the engine source (idempotently) but never writes
`this.playing = false` (unlike `pause()`, which does), so on a playing
file `isPlaying()` still returns `true` after `stop()`. This theorem
evaluates the code at the failing input: start then stop on a loaded
file. -/
theorem soundFile_stop_leaves_playing_flag_set :
    sf0.start.isPlaying = true ∧
    sf0.start.stop.isPlaying = true ∧
    sf0.start.stop.soundfile.state = PlayState.stopped ∧
    sf0.start.stop.stop = sf0.start.stop :=
  ⟨rfl, rfl, rfl, rfl⟩

/-- C2 counterexample: with `fftSize = 32` the claim promises exactly 16
values, but the constructor passes `size: fftSize` to the engine analyzer,
which returns one value per bin, i.e. 32 values. -/
theorem fft_analyze_length_not_half :
    ((FFT.new (some 32)).analyze (fun _ => 0)).length = 32 ∧
    ¬ ((FFT.new (some 32)).analyze (fun _ => 0)).length = 16 := by
  decide

/-- C2 amended: `analyze()` returns exactly `fftSize` values (not
`fftSize/2`), each in `[0, 1]`, with the length identical across calls on
the same instance, and a missing constructor argument defaults `fftSize`
to 32. -/
theorem fft_analyze_length_and_range (n : ℕ) (raw : ℕ → ℚ) :
    ((FFT.new (some n)).analyze raw).length = n ∧
    ((FFT.new none).analyze raw).length = 32 ∧
    (∀ (f : FFT) (raw2 : ℕ → ℚ),
      (f.analyze raw).length = (f.analyze raw2).length) ∧
    (∀ v ∈ (FFT.new (some n)).analyze raw, 0 ≤ v ∧ v ≤ 1) := by
  refine ⟨?_, ?_, ?_, ?_⟩
  · simp [FFT.analyze, FFT.new, ToneFFT.getValue]
  · simp [FFT.analyze, FFT.new, ToneFFT.getValue]
  · intro f raw2
    simp [FFT.analyze, ToneFFT.getValue]
  · intro v hv
    simp only [FFT.analyze, FFT.new, ToneFFT.getValue, List.mem_map,
      List.mem_range, if_true] at hv
    obtain ⟨i, -, rfl⟩ := hv
    constructor
    · exact le_max_left 0 _
    · exact max_le (by norm_num) (min_le_left 1 _)

/-- C2 witness: instantiates the amended theorem at `fftSize = 32` and the
zero spectrum, whose first returned value is `0` and lies in `[0, 1]`. -/
theorem fft_analyze_length_and_range_witness :
    (0:ℚ) ∈ (FFT.new (some 32)).analyze (fun _ => 0) ∧
    (0 ≤ (0:ℚ) ∧ (0:ℚ) ≤ 1) :=
  ⟨by decide, (fft_analyze_length_and_range 32 (fun _ => 0)).2.2.2 0 (by decide)⟩

/-- C3: `disconnect()` passes `Tone.Context.destination` — which evaluates
to `undefined` — to the engine, so the engine removes every outgoing edge
(the implicit default edge to the destination included), raises nothing even
on a node with no prior `connect()` or no edges at all, and a second
`disconnect()` is a no-op returning the same state. Holds for every
`SoundFile` and every `Noise`. -/
theorem disconnect_removes_all_edges_and_is_idempotent :
    ∀ (sf : SoundFile) (nz : Noise),
      (∃ sf2, sf.disconnect = Except.ok sf2 ∧
        sf2.soundfile.outEdges = [] ∧ sf2.disconnect = Except.ok sf2) ∧
      (∃ n2, nz.disconnect = Except.ok n2 ∧
        n2.noise.outEdges = [] ∧ n2.disconnect = Except.ok n2) :=
  fun _ _ => ⟨⟨_, rfl, rfl, rfl⟩, ⟨_, rfl, rfl, rfl⟩⟩

/-- C4: the claim says all four buffer-metadata queries return `undefined`
before the buffer loads. `sampleRate()`, `channels()` and `frames()` are
guarded by `if (this.soundfile.buffer)` and do return `undefined`, but
`duration()` (part_000 lines 174–176) dereferences
`this.soundfile.buffer.duration` with no guard, so on an unloaded file it
raises a `TypeError` instead. On a loaded file it returns the duration. -/
theorem unloaded_buffer_metadata_queries :
    sfUnloaded.sampleRate = none ∧
    sfUnloaded.channels = none ∧
    sfUnloaded.frames = none ∧
    sfUnloaded.duration = Except.error JsError.typeError ∧
    sf0.duration = Except.ok 1 :=
  ⟨rfl, rfl, rfl, rfl, rfl⟩

/-- C5: `start()` and `play()` perform the identical state transition from
every state: both reapply the stored rate to the engine, start the engine
source and set the playing flag (the extra `console.log` in `play()`
touches no node state). -/
theorem start_play_equivalent :
    ∀ sf : SoundFile, sf.start = sf.play :=
  fun _ => rfl

/-- C6: `pause()` sets the engine playback rate to 0 and the playing flag to
`false`, leaves the stored `rate` field and the transport position
untouched, and a subsequent `start()` runs the engine again with the
previously stored rate reapplied. -/
theorem pause_zeroes_rate_keeps_stored_rate_and_position (sf : SoundFile) :
    sf.pause.soundfile.playbackRate = 0 ∧
    sf.pause.playing = false ∧
    sf.pause.rate = sf.rate ∧
    sf.pause.soundfile.seekPos = sf.soundfile.seekPos ∧
    sf.pause.start.soundfile.playbackRate = sf.rate ∧
    sf.pause.start.soundfile.state = PlayState.started :=
  ⟨rfl, rfl, rfl, rfl, rfl, rfl⟩

/-- C7: `loopPoints(startTime, duration)` sets `loopStart = startTime` and
`loopEnd = startTime + duration`; for a valid call (positive duration) the
invariant `loopEnd > loopStart` holds afterwards. -/
theorem loopPoints_sets_bounds (sf : SoundFile) (s d : ℚ) (h : 0 < d) :
    (sf.loopPoints s d).soundfile.loopStart = s ∧
    (sf.loopPoints s d).soundfile.loopEnd = s + d ∧
    (sf.loopPoints s d).soundfile.loopStart <
      (sf.loopPoints s d).soundfile.loopEnd := by
  refine ⟨rfl, rfl, ?_⟩
  show s < s + d
  linarith

/-- C7 witness: `loopPoints(2.0, 3.0)` gives `loopStart = 2`,
`loopEnd = 2 + 3 = 5`, and `loopEnd > loopStart`. -/
theorem loopPoints_sets_bounds_witness :
    (0:ℚ) < 3 ∧
    ((sf0.loopPoints 2 3).soundfile.loopStart = 2 ∧
     (sf0.loopPoints 2 3).soundfile.loopEnd = 2 + 3 ∧
     (sf0.loopPoints 2 3).soundfile.loopStart <
       (sf0.loopPoints 2 3).soundfile.loopEnd) :=
  ⟨by norm_num, loopPoints_sets_bounds sf0 2 3 (by norm_num)⟩

/-- C8 counterexample: the claim says `amp(0)` maps to the engine's silence
floor rather than `-Infinity`; but `Tone.gainToDb(0) = 20 * Math.log10(0)`
is `-Infinity`, and that is exactly the value `amp(0)` stores in the
engine's volume parameter. -/
theorem amp_zero_applies_negative_infinity :
    (sf0.amp 0).soundfile.volume = DbValue.negInf := by
  show gainToDb 0 = DbValue.negInf
  simp [gainToDb]

/-- C8 amended: for linear gain `g` in `(0, 1]`, `amp(g)` applies exactly
`dB = 20 * log10 g`; `amp(0)` applies `-Infinity` dB — which the engine
treats as zero gain, i.e. silence — and not `NaN`. -/
theorem amp_decibel_conversion (sf : SoundFile) (g : ℚ)
    (h0 : 0 < g) (h1 : g ≤ 1) :
    (sf.amp g).soundfile.volume = DbValue.fin (20 * Real.logb 10 (g : ℝ)) ∧
    (sf.amp 0).soundfile.volume = DbValue.negInf ∧
    DbValue.negInf ≠ DbValue.nan := by
  refine ⟨?_, ?_, ?_⟩
  · show gainToDb g = _
    rw [gainToDb, if_neg (not_lt.mpr h0.le), if_neg h0.ne']
  · show gainToDb 0 = DbValue.negInf
    simp [gainToDb]
  · intro h
    cases h

/-- C8 witness: the amended theorem at `g = 1` (where the applied value is
`20 * log10 1`, i.e. 0 dB). -/
theorem amp_decibel_conversion_witness :
    0 < (1:ℚ) ∧ (1:ℚ) ≤ 1 ∧
    ((sf0.amp 1).soundfile.volume =
        DbValue.fin (20 * Real.logb 10 ((1:ℚ) : ℝ)) ∧
     (sf0.amp 0).soundfile.volume = DbValue.negInf ∧
     DbValue.negInf ≠ DbValue.nan) :=
  ⟨by norm_num, by norm_num,
    amp_decibel_conversion sf0 1 (by norm_num) (by norm_num)⟩

/-- C9: the `FFT` constructor assigns `this.waveform = new Tone.Waveform()`,
an own property that shadows the prototype method `waveform()` (FFT.js lines
64–67); JS method resolution finds the own property, a non-callable object,
so `fft.waveform()` raises a `TypeError` instead of returning a value —
while a non-shadowed prototype method such as `analyze` runs normally. -/
theorem fft_waveform_call_raises_type_error :
    "waveform" ∈ fftOwnProps ∧
    "waveform" ∈ fftProtoMethods ∧
    jsCallMethod fftOwnProps fftOwnPropCallable fftProtoMethods "waveform" =
      Except.error JsError.typeError ∧
    jsCallMethod fftOwnProps fftOwnPropCallable fftProtoMethods "analyze" =
      Except.ok () :=
  ⟨by decide, by decide, rfl, rfl⟩

/-- C10: constructing `Noise` with no argument defaults the engine node's
color to "white"; any supplied argument — recognized color or not — is
forwarded unchanged to the engine node by both the constructor and
`type(t)`. -/
theorem noise_type_defaults_white_and_forwards :
    (Noise.new none).noise.type = "white" ∧
    (∀ t : String, (Noise.new (some t)).noise.type = t) ∧
    (∀ (n : Noise) (t : String), (n.type t).noise.type = t) :=
  ⟨rfl, fun _ => rfl, fun _ _ => rfl⟩
